import Mathlib

/-!
Verification of the research-agent pipeline (topic validation, output
validation, research-output normalization, writer fallback logic, scrape
adapter, and the orchestrator) against its natural-language specification.
The Python source is shallowly embedded: each Lean definition mirrors one
Python function or code path from the repository.
-/

namespace ResearchAgent

/-! ### Python string primitives used by the validators -/

/-- The whitespace characters recognized by Python `str.strip()` and the
regex class backslash-s (ASCII subset). -/
def isPySpace (c : Char) : Bool :=
  c = ' ' || c = '\t' || c = '\n' || c = '\r' || c = '\x0b' || c = '\x0c'

/-- Python `str.strip()`: drop leading and trailing whitespace. -/
def pyStrip (s : String) : String :=
  ⟨((s.toList.dropWhile isPySpace).reverse.dropWhile isPySpace).reverse⟩

/-- Python `sep.join(parts)`. -/
def pyJoin (sep : String) : List String → String
  | [] => ""
  | [a] => a
  | a :: b :: rest => a ++ sep ++ pyJoin sep (b :: rest)

/-! ### `src/utils/validators.py`: `validate_topic` -/

/-- The three failure modes of `validate_topic` (the distinct `ValueError`
messages raised by the source). -/
inductive TopicError
  | EmptyInput
  | TooShort
  | TooLong
deriving DecidableEq, Repr

/-- Embedding of `validate_topic` (validators.py lines 7-16):
`if not topic or not topic.strip(): raise`, then length under 3, then
length over 200. -/
def validate_topic (topic : String) : Except TopicError Unit :=
  if topic = "" || pyStrip topic = "" then .error .EmptyInput
  else if topic.length < 3 then .error .TooShort
  else if topic.length > 200 then .error .TooLong
  else .ok ()

/-! ### `src/utils/validators.py`: `validate_linkedin_post` -/

/-- A word character for the regex class backslash-w (ASCII subset):
letters, digits, underscore. -/
def isWordChar (c : Char) : Bool :=
  c.isAlphanum || c = '_'

/-- Scanner state for the regex `#` backslash-`w+`: outside any match,
right after an unmatched `#`, or inside the word-run of a counted
match. -/
inductive HashScanState
  | normal
  | afterHash
  | inRun
deriving DecidableEq, Repr

/-- One left-to-right scan counting non-overlapping matches of the regex
`#` backslash-`w+`, as `re.findall` does: a match consumes the `#` and
the maximal run of word characters after it; scanning resumes at the
first character past the run. -/
def countHashtagsFrom : HashScanState → List Char → Nat
  | _, [] => 0
  | .normal, c :: rest =>
    if c = '#' then countHashtagsFrom .afterHash rest
    else countHashtagsFrom .normal rest
  | .afterHash, c :: rest =>
    if isWordChar c then 1 + countHashtagsFrom .inRun rest
    else if c = '#' then countHashtagsFrom .afterHash rest
    else countHashtagsFrom .normal rest
  | .inRun, c :: rest =>
    if isWordChar c then countHashtagsFrom .inRun rest
    else if c = '#' then countHashtagsFrom .afterHash rest
    else countHashtagsFrom .normal rest

/-- `len(re.findall(r'#\w+', post))` on the character list. -/
def countHashtags (l : List Char) : Nat :=
  countHashtagsFrom .normal l

/-- Number of non-overlapping occurrences of the separator `"\n\n"`,
scanning left to right as Python `str.split("\n\n")` does; the split
produces one more segment than this count. -/
def countParagraphSep : List Char → Nat
  | '\n' :: '\n' :: rest => 1 + countParagraphSep rest
  | _ :: rest => countParagraphSep rest
  | [] => 0

/-- Whether the regex `^#\x7b1,6\x7d` backslash-`s` matches at this
position (a line start): one to six `#` characters followed by a
whitespace character. Backtracking over the counted repetition means a
match exists iff the full run of leading `#` has length 1..6 and the
character right after the run is whitespace. -/
def headerFrom (l : List Char) : Bool :=
  let j := (l.takeWhile (fun c => c = '#')).length
  decide (1 ≤ j) && decide (j ≤ 6) &&
    (match l.drop j with
     | [] => false
     | c :: _ => isPySpace c)

/-- Scan for a header match at any position right after a newline. -/
def scanHeader : List Char → Bool
  | [] => false
  | '\n' :: rest => headerFrom rest || scanHeader rest
  | _ :: rest => scanHeader rest

/-- `re.search` of the multiline header pattern: a match at the string
start or after any newline. -/
def hasMarkdownHeader (l : List Char) : Bool :=
  headerFrom l || scanHeader l

def tooShortMsg : String := "Post might be too short (< 100 chars)"
def tooLongMsg : String := "Post exceeds recommended length (> 3000 chars)"
def noHashtagsMsg : String := "No hashtags found"
def tooManyHashtagsMsg (n : Nat) : String :=
  "Too many hashtags (" ++ toString n ++ "), optimal is 3-5"
def lineBreaksMsg : String := "Consider adding more line breaks for readability"
def markdownHeaderMsg : String :=
  "Contains markdown headers (# ##) which won't render on LinkedIn"

/-- The length rule (validators.py lines 30-34). -/
def lengthWarnings (length : Nat) : List String :=
  if length < 100 then [tooShortMsg]
  else if length > 3000 then [tooLongMsg]
  else []

/-- The hashtag rule (validators.py lines 37-41). -/
def hashtagWarnings (nHash : Nat) : List String :=
  if nHash = 0 then [noHashtagsMsg]
  else if nHash > 10 then [tooManyHashtagsMsg nHash]
  else []

/-- The paragraph rule (validators.py lines 44-46). -/
def paragraphWarnings (nPara : Nat) : List String :=
  if nPara < 3 then [lineBreaksMsg]
  else []

/-- The markdown-header rule (validators.py lines 49-50). -/
def headerWarnings (found : Bool) : List String :=
  if found then [markdownHeaderMsg]
  else []

structure ValidationStats where
  length : Nat
  paragraphs : Nat
  hashtags : Nat
deriving DecidableEq, Repr

structure ValidationReport where
  valid : Bool
  warnings : List String
  stats : ValidationStats
deriving DecidableEq, Repr

/-- Embedding of `validate_linkedin_post` (validators.py lines 19-60):
the four rules run unconditionally, appending their warnings to one list
in order; `valid` is the emptiness of that list. -/
def validate_linkedin_post (post : String) : ValidationReport :=
  let length := post.length
  let nHash := countHashtags post.toList
  let nPara := countParagraphSep post.toList + 1
  let warnings :=
    lengthWarnings length ++ hashtagWarnings nHash ++
    paragraphWarnings nPara ++ headerWarnings (hasMarkdownHeader post.toList)
  { valid := warnings.length == 0
    warnings := warnings
    stats := ⟨length, nPara, nHash⟩ }

/-! ### `src/types/schemas.py`: `LinkedInPost` -/

/-- The fields of the `LinkedInPost` pydantic model, as a plain record. -/
structure LinkedInPost where
  hook : String
  context : String
  key_points : List String
  takeaway : String
  call_to_action : String
  hashtags : List String
deriving DecidableEq, Repr

/-- Raw field values handed to the `LinkedInPost` constructor (a parsed
dict or parsed model payload), before pydantic validation. -/
structure CandidatePost where
  hook : String
  context : String
  key_points : List String
  takeaway : String
  call_to_action : String
  hashtags : List String
deriving DecidableEq, Repr

/-- Embedding of `LinkedInPost(**fields)` construction: pydantic enforces
`min_items=3, max_items=5` on `key_points` and `hashtags`
(schemas.py lines 32-43) and raises a validation error otherwise. -/
def mkLinkedInPost (c : CandidatePost) : Except String LinkedInPost :=
  if 3 ≤ c.key_points.length ∧ c.key_points.length ≤ 5 then
    if 3 ≤ c.hashtags.length ∧ c.hashtags.length ≤ 5 then
      .ok ⟨c.hook, c.context, c.key_points, c.takeaway, c.call_to_action, c.hashtags⟩
    else .error "validation error: hashtags count out of range"
  else .error "validation error: key_points count out of range"

/-- Embedding of `LinkedInPost.format_for_linkedin` (schemas.py
lines 45-57): blank-line separators, a bullet marker per key point,
hashtags space-joined at the end. -/
def format_for_linkedin (p : LinkedInPost) : String :=
  p.hook ++ "\n\n" ++ p.context ++ "\n\n" ++
  String.join (p.key_points.map (fun point => "• " ++ point ++ "\n\n")) ++
  p.takeaway ++ "\n\n" ++ p.call_to_action ++ "\n\n" ++
  pyJoin " " p.hashtags

/-! ### Research-output normalization (research_workflow.py lines 188-199) -/

/-- One element of the research agent's list-shaped output: either a dict
carrying a `"text"` key, or anything else (carried with its Python string
rendering). -/
inductive Step
  | dictText (t : String)
  | other (rendered : String)
deriving DecidableEq, Repr

/-- The `"text"` field of a step, when the step is a dict that has one. -/
def stepText : Step → Option String
  | .dictText t => some t
  | .other _ => none

/-- Python `str` rendering of one step (model of `repr` inside a list). -/
def pyStrStep : Step → String
  | .dictText t => "\x7b'text': '" ++ t ++ "'\x7d"
  | .other rendered => rendered

/-- Python `str(raw_output)` for a list-shaped output. -/
def pyStrRaw (l : List Step) : String :=
  "[" ++ pyJoin ", " (l.map pyStrStep) ++ "]"

/-- Embedding of the list branch of the research-report extraction
(research_workflow.py lines 190-197): join the `"text"` fields of the
dict steps that have one with `"\n\n"`; if the joined string is empty
(falsy), fall back to `str(raw_output)`. -/
def normalizeResearch (raw : List Step) : String :=
  let research_report := pyJoin "\n\n" (raw.filterMap stepText)
  if research_report = "" then pyStrRaw raw else research_report

/-- The research agent's `"output"` value: a list of steps or a string
(the `isinstance(raw_output, list)` test; any non-list value is passed
through `str`, the identity on strings). -/
inductive RawOutput
  | list (steps : List Step)
  | str (s : String)
deriving DecidableEq, Repr

/-- The full extraction (research_workflow.py lines 189-199). -/
def normalizeRaw : RawOutput → String
  | .list steps => normalizeResearch steps
  | .str s => s

/-! ### Writer stage (research_workflow.py lines 127-160 and 206-240) -/

/-- Which chain `_setup_writer_agent` installed as `self.writer_chain`. -/
inductive WriterChain
  | structuredJson
  | parserFallback
deriving DecidableEq, Repr

/-- Embedding of `_setup_writer_agent` (lines 139-160): if
`with_structured_output` succeeds the structured JSON-mode chain is
installed; if it raises, the `PydanticOutputParser` fallback chain is
installed. The choice is made once, at setup time. -/
def setupWriterChain (withStructuredOutputOk : Bool) : WriterChain :=
  if withStructuredOutputOk then .structuredJson else .parserFallback

/-- The value `self.writer_chain.invoke(...)` produced on a run of the
structured chain: a parsed model, a dict, a raw string (with the later
`json.loads` outcome attached as an oracle for that external parser), or
any other value carried via its string rendering. -/
inductive PostOutput
  | pydantic (p : LinkedInPost)
  | dict (c : CandidatePost)
  | str (s : String) (jsonParse : Option CandidatePost)
  | other (rendered : String)

/-- Embedding of the writer-stage invocation (lines 208-212): run
whichever chain setup installed; an exception from the chain propagates.
The fallback chain's `PydanticOutputParser` yields a `LinkedInPost` when
it succeeds. -/
def runWriterStage (chain : WriterChain)
    (structuredRun : Except String PostOutput)
    (fallbackRun : Except String LinkedInPost) : Except String PostOutput :=
  match chain with
  | .structuredJson => structuredRun
  | .parserFallback => fallbackRun.map .pydantic

/-- Embedding of the shape dispatch on `post_structured`
(lines 215-235): a `LinkedInPost` is formatted; a dict is validated then
formatted, a validation error propagating to the enclosing handler which
re-raises; a string is JSON-parsed and validated inside an inner
`try/except` whose handler keeps the raw string; anything else is
stringified. -/
def postToText : PostOutput → Except String String
  | .pydantic p => .ok (format_for_linkedin p)
  | .dict c =>
    match mkLinkedInPost c with
    | .ok post => .ok (format_for_linkedin post)
    | .error e => .error e
  | .str s jsonParse =>
    .ok (match jsonParse with
      | some c =>
        match mkLinkedInPost c with
        | .ok post => format_for_linkedin post
        | .error _ => s
      | none => s)
  | .other rendered => .ok rendered

/-! ### `execute` (research_workflow.py lines 162-267) -/

/-- The `"output"` and `"intermediate_steps"` entries of the research
agent's result dict. -/
structure ResearchStageResult where
  output : RawOutput
  intermediate_steps : List Unit

inductive ExecError
  | invalidTopic (e : TopicError)
  | stageError (msg : String)
deriving DecidableEq, Repr

structure ExecMetadata where
  research_steps : Nat
  post_length : Nat
  validation : ValidationReport
  model_used : String
deriving DecidableEq, Repr

structure ExecutionResult where
  topic : String
  research_report : String
  linkedin_post : String
  metadata : ExecMetadata
deriving DecidableEq, Repr

/-- Embedding of `ResearchWorkflow.execute`: validate the topic first
(an error propagates before anything else runs); then the research
stage, normalization, the writer stage, the shape dispatch; then the
soft output validation and result assembly (lines 242-263). The stage
outcomes are the only external inputs and are passed as values. -/
def executeModel (modelUsed : String) (topic : String)
    (research : Except String ResearchStageResult)
    (writer : Except String PostOutput) : Except ExecError ExecutionResult :=
  match validate_topic topic with
  | .error e => .error (.invalidTopic e)
  | .ok _ =>
    match research with
    | .error e => .error (.stageError e)
    | .ok rres =>
      let research_report := normalizeRaw rres.output
      match writer with
      | .error e => .error (.stageError e)
      | .ok pout =>
        match postToText pout with
        | .error e => .error (.stageError e)
        | .ok linkedin_post =>
          let validation_result := validate_linkedin_post linkedin_post
          .ok
            { topic := topic
              research_report := research_report
              linkedin_post := linkedin_post
              metadata :=
                { research_steps := rres.intermediate_steps.length
                  post_length := linkedin_post.length
                  validation := validation_result
                  model_used := modelUsed } }

/-! ### `src/tools/scrape_tool.py`: `ResearchScrapeTool.scrape` -/

/-- The request `scrape` sends (scrape_tool.py lines 32-48): endpoint,
payload and the fixed timeout passed to `requests.post`. -/
structure ScrapeRequest where
  endpoint : String
  payloadUrl : String
  formats : List String
  onlyMainContent : Bool
  timeoutSeconds : Nat
deriving DecidableEq, Repr

def scrapeRequest (url : String) : ScrapeRequest :=
  { endpoint := "https://api.firecrawl.dev/v0/scrape"
    payloadUrl := url
    formats := ["markdown"]
    onlyMainContent := true
    timeoutSeconds := 30 }

/-- What the external HTTP call did: raised (network error, timeout, or a
later JSON decode error), or returned a response with a status code and,
when the body decoded, the optional `data.markdown` field. -/
inductive RequestOutcome
  | exn (msg : String)
  | resp (status : Nat) (markdownField : Option String)

/-- Whether the outcome is one of the failure cases `scrape` absorbs:
a raised exception or an HTTP error status (`raise_for_status` raises
for 4xx/5xx). -/
def scrapeFailed : RequestOutcome → Bool
  | .exn _ => true
  | .resp status _ => 400 ≤ status

/-- The `str(e)` message the handler interpolates for each failure. -/
def scrapeErrMsg : RequestOutcome → String
  | .exn msg => msg
  | .resp status _ => "HTTP error " ++ toString status

/-- Embedding of `ResearchScrapeTool.scrape` (scrape_tool.py
lines 19-59): every failure is caught and converted to the sentinel
string; success returns `data.get("data", ...).get("markdown", "")`. -/
def scrape (url : String) (o : RequestOutcome) : String :=
  if scrapeFailed o then "Error scraping " ++ url ++ ": " ++ scrapeErrMsg o
  else
    match o with
    | .exn msg => "Error scraping " ++ url ++ ": " ++ msg
    | .resp _ markdownField => markdownField.getD ""

/-! ### Shared helper lemmas -/

/-- `pyStrip s` is empty exactly when every character of `s` is whitespace
(vacuously for the empty string). -/
theorem pyStrip_eq_empty_iff (s : String) :
    pyStrip s = "" ↔ ∀ c ∈ s.toList, isPySpace c = true := by
  have hdata : (pyStrip s).data
      = ((s.toList.dropWhile isPySpace).reverse.dropWhile isPySpace).reverse := rfl
  constructor
  · intro h c hc
    have h0 : ((s.toList.dropWhile isPySpace).reverse.dropWhile isPySpace).reverse = [] := by
      rw [← hdata, h]
    have h2 : (s.toList.dropWhile isPySpace).reverse.dropWhile isPySpace = [] := by
      simpa using congrArg List.reverse h0
    have h4 : ∀ x ∈ s.toList.dropWhile isPySpace, isPySpace x = true := by
      intro x hx
      exact List.dropWhile_eq_nil_iff.mp h2 x (List.mem_reverse.mpr hx)
    rw [← List.takeWhile_append_dropWhile (p := isPySpace) (l := s.toList)] at hc
    rcases List.mem_append.mp hc with htk | hdp
    · exact List.mem_takeWhile_imp htk
    · exact h4 c hdp
  · intro h
    apply String.ext
    rw [hdata, List.dropWhile_eq_nil_iff.mpr h]
    rfl

theorem validate_topic_of_all_space {s : String}
    (h : s.toList.all isPySpace = true) :
    validate_topic s = .error .EmptyInput := by
  have hp : pyStrip s = "" :=
    (pyStrip_eq_empty_iff s).mpr (fun c hc => List.all_eq_true.mp h c hc)
  unfold validate_topic
  simp [hp]

theorem validate_topic_guard_of_not_all_space {s : String}
    (h : s.toList.all isPySpace = false) :
    ¬ s = "" ∧ ¬ pyStrip s = "" := by
  constructor
  · intro he
    subst he
    exact absurd h (by decide)
  · intro hp
    have : s.toList.all isPySpace = true :=
      List.all_eq_true.mpr (pyStrip_eq_empty_iff s |>.mp hp)
    rw [h] at this
    cases this

/-! ### Claim theorems -/

/-- C3 counterexample: the claim says every string of length 3 through
200 passes `validate_topic`, but the three-space string has length 3 and
fails with `EmptyInput` (the whitespace-only check fires at any
length). -/
theorem validate_topic_whitespace_cex :
    ("   " : String).length = 3 ∧ validate_topic "   " = .error .EmptyInput := by
  constructor
  · rfl
  · rfl

/-- C3 (amended): `validate_topic` fails with `EmptyInput` on every
whitespace-only string (any length, including 0); on strings with at
least one non-whitespace character it fails with `TooShort` below length
3, passes at lengths 3 through 200, and fails with `TooLong` above
200. -/
theorem validate_topic_characterization (s : String) :
    (s.toList.all isPySpace = true → validate_topic s = .error .EmptyInput) ∧
    (s.toList.all isPySpace = false → s.length < 3 →
      validate_topic s = .error .TooShort) ∧
    (s.toList.all isPySpace = false → 3 ≤ s.length → s.length ≤ 200 →
      validate_topic s = .ok ()) ∧
    (s.toList.all isPySpace = false → 200 < s.length →
      validate_topic s = .error .TooLong) := by
  refine ⟨fun h => validate_topic_of_all_space h, ?_, ?_, ?_⟩
  · intro hall hlen
    obtain ⟨hse, hps⟩ := validate_topic_guard_of_not_all_space hall
    unfold validate_topic
    simp [hse, hps, hlen]
  · intro hall hge hle
    obtain ⟨hse, hps⟩ := validate_topic_guard_of_not_all_space hall
    have h1 : ¬ s.length < 3 := by omega
    have h2 : ¬ s.length > 200 := by omega
    unfold validate_topic
    simp [hse, hps, h1, h2]
  · intro hall hgt
    obtain ⟨hse, hps⟩ := validate_topic_guard_of_not_all_space hall
    have h1 : ¬ s.length < 3 := by omega
    have h2 : s.length > 200 := hgt
    unfold validate_topic
    simp [hse, hps, h1, h2]

set_option maxRecDepth 4000 in
/-- C3 witness: the theorem applied at concrete inputs — "AI!" passes,
"AI" is too short, a 201-character string is too long. -/
theorem validate_topic_characterization_witness :
    validate_topic "AI!" = .ok () ∧
    validate_topic "AI" = .error .TooShort ∧
    validate_topic (String.mk (List.replicate 201 'a')) = .error .TooLong :=
  ⟨(validate_topic_characterization "AI!").2.2.1 (by decide) (by decide) (by decide),
   (validate_topic_characterization "AI").2.1 (by decide) (by decide),
   (validate_topic_characterization (String.mk (List.replicate 201 'a'))).2.2.2
     (by decide) (by decide)⟩

/-- C4: `validate_linkedin_post` is non-short-circuiting — its warning
list is exactly the concatenation of the four rules' warning groups, in
order; `valid` is true iff the warning list is empty; and every input of
length 50 with no hashtag match gets both the too-short warning and the
no-hashtags warning, with `valid = false`. -/
theorem validate_post_accumulates (post : String) :
    ((validate_linkedin_post post).valid = true ↔
      (validate_linkedin_post post).warnings = []) ∧
    ((validate_linkedin_post post).warnings =
      lengthWarnings post.length ++
      hashtagWarnings (countHashtags post.toList) ++
      paragraphWarnings (countParagraphSep post.toList + 1) ++
      headerWarnings (hasMarkdownHeader post.toList)) ∧
    (post.length = 50 → countHashtags post.toList = 0 →
      tooShortMsg ∈ (validate_linkedin_post post).warnings ∧
      noHashtagsMsg ∈ (validate_linkedin_post post).warnings ∧
      (validate_linkedin_post post).valid = false) := by
  refine ⟨?_, rfl, ?_⟩
  · show ((validate_linkedin_post post).warnings.length == 0) = true ↔ _
    rw [beq_iff_eq, List.length_eq_zero]
  · intro hlen hhash
    have hL : lengthWarnings post.length = [tooShortMsg] := by
      rw [hlen]; rfl
    have hH : hashtagWarnings (countHashtags post.toList) = [noHashtagsMsg] := by
      rw [hhash]; rfl
    refine ⟨?_, ?_, ?_⟩
    · show tooShortMsg ∈ lengthWarnings post.length ++ _ ++ _ ++ _
      rw [hL]
      simp
    · show noHashtagsMsg ∈ lengthWarnings post.length ++ _ ++ _ ++ _
      rw [hL, hH]
      simp
    · show ((lengthWarnings post.length ++ _ ++ _ ++ _).length == 0) = false
      rw [hL]
      simp

/-- C4 witness: the theorem applied to a concrete 50-character,
hashtag-free input. -/
theorem validate_post_accumulates_witness :
    tooShortMsg ∈ (validate_linkedin_post (String.mk (List.replicate 50 'a'))).warnings ∧
    noHashtagsMsg ∈ (validate_linkedin_post (String.mk (List.replicate 50 'a'))).warnings ∧
    (validate_linkedin_post (String.mk (List.replicate 50 'a'))).valid = false :=
  (validate_post_accumulates (String.mk (List.replicate 50 'a'))).2.2
    (by decide) (by decide)

theorem pyJoin_cons_cons (sep a b : String) (rest : List String) :
    pyJoin sep (a :: b :: rest) = a ++ sep ++ pyJoin sep (b :: rest) := rfl

/-- The Python join on `"\n\n"` is falsy (empty) exactly when the list
is empty or is the singleton empty string. -/
theorem pyJoin_nn_eq_empty_iff (l : List String) :
    pyJoin "\n\n" l = "" ↔ (l = [] ∨ l = [""]) := by
  match l with
  | [] => simp [pyJoin]
  | [a] => simp [pyJoin]
  | a :: b :: rest =>
    constructor
    · intro h
      exfalso
      have hlen := congrArg String.length h
      rw [pyJoin_cons_cons, String.length_append, String.length_append] at hlen
      have h2 : ("\n\n" : String).length = 2 := rfl
      have h0 : ("" : String).length = 0 := rfl
      omega
    · intro h
      rcases h with h | h <;> simp at h

/-- C5: when the research output is a list of 3 steps of which exactly 2
carry a text field, the normalized report is those 2 texts joined by a
blank line, in order; and when no step carries a text field the report
is the string rendering of the whole list. -/
theorem normalize_research_three_steps (raw : List Step) (t1 t2 : String) :
    (raw.length = 3 → raw.filterMap stepText = [t1, t2] →
      normalizeResearch raw = t1 ++ "\n\n" ++ t2) ∧
    (raw.filterMap stepText = [] → normalizeResearch raw = pyStrRaw raw) := by
  constructor
  · intro _ htexts
    have hne : pyJoin "\n\n" [t1, t2] ≠ "" := by
      intro h
      rcases (pyJoin_nn_eq_empty_iff [t1, t2]).mp h with h | h <;> simp at h
    simp only [normalizeResearch, htexts]
    rw [if_neg hne]
    rfl
  · intro htexts
    have h : pyJoin "\n\n" ([] : List String) = "" := rfl
    simp only [normalizeResearch, htexts]
    rw [if_pos h]

/-- C5 witness: the theorem applied to a concrete 3-step list with 2
texts, and to a concrete list with none. -/
theorem normalize_research_three_steps_witness :
    normalizeResearch [Step.other "s0", Step.dictText "A", Step.dictText "B"]
      = "A" ++ "\n\n" ++ "B" ∧
    normalizeResearch [Step.other "s0"] = pyStrRaw [Step.other "s0"] :=
  ⟨(normalize_research_three_steps
      [Step.other "s0", Step.dictText "A", Step.dictText "B"] "A" "B").1
      (by decide) (by decide),
   (normalize_research_three_steps [Step.other "s0"] "" "").2 (by decide)⟩

/-- C10 counterexample: two steps whose text fields are both the empty
string join to `"\n\n"`, which is truthy, so the report is `"\n\n"` and
NOT the string rendering of the whole list — the claim's "all text
fields empty" condition does not trigger the fallback. -/
theorem normalize_fallback_cex :
    normalizeResearch [Step.dictText "", Step.dictText ""] = "\n\n" ∧
    pyStrRaw [Step.dictText "", Step.dictText ""] ≠ "\n\n" := by
  exact ⟨rfl, by decide⟩

/-- C10 (amended): the fallback to the string rendering of the whole
list triggers exactly when the joined text is empty, which happens iff
no step carries a text field or exactly one step carries a text field
whose value is the empty string. -/
theorem normalize_fallback_characterization (raw : List Step) :
    (pyJoin "\n\n" (raw.filterMap stepText) = "" ↔
      (raw.filterMap stepText = [] ∨ raw.filterMap stepText = [""])) ∧
    (pyJoin "\n\n" (raw.filterMap stepText) = "" →
      normalizeResearch raw = pyStrRaw raw) ∧
    (pyJoin "\n\n" (raw.filterMap stepText) ≠ "" →
      normalizeResearch raw = pyJoin "\n\n" (raw.filterMap stepText)) := by
  refine ⟨pyJoin_nn_eq_empty_iff _, ?_, ?_⟩
  · intro h
    simp only [normalizeResearch]
    rw [if_pos h]
  · intro h
    simp only [normalizeResearch]
    rw [if_neg h]

/-- C10 amended witness: one step with an empty text field makes the
join empty and the report fall back to the list rendering. -/
theorem normalize_fallback_characterization_witness :
    normalizeResearch [Step.dictText ""] = pyStrRaw [Step.dictText ""] :=
  (normalize_fallback_characterization [Step.dictText ""]).2.1 (by decide)

/-- C9: `LinkedInPost` construction succeeds only with `key_points` and
`hashtags` counts in `[3,5]` — every successfully constructed post has
both counts in range, and any candidate with a count out of range is
rejected with a validation error. -/
theorem linkedinpost_count_invariant (c : CandidatePost) :
    (∀ p, mkLinkedInPost c = .ok p →
      3 ≤ p.key_points.length ∧ p.key_points.length ≤ 5 ∧
      3 ≤ p.hashtags.length ∧ p.hashtags.length ≤ 5) ∧
    (¬ (3 ≤ c.key_points.length ∧ c.key_points.length ≤ 5 ∧
        3 ≤ c.hashtags.length ∧ c.hashtags.length ≤ 5) →
      ∃ e, mkLinkedInPost c = .error e) := by
  constructor
  · intro p hp
    unfold mkLinkedInPost at hp
    split at hp
    · split at hp
      · injection hp with hp
        subst hp
        rename_i h1 h2
        exact ⟨h1.1, h1.2, h2.1, h2.2⟩
      · cases hp
    · cases hp
  · intro h
    unfold mkLinkedInPost
    by_cases h1 : 3 ≤ c.key_points.length ∧ c.key_points.length ≤ 5
    · have h2 : ¬ (3 ≤ c.hashtags.length ∧ c.hashtags.length ≤ 5) := by
        intro h2
        exact h ⟨h1.1, h1.2, h2.1, h2.2⟩
      rw [if_pos h1, if_neg h2]
      exact ⟨_, rfl⟩
    · rw [if_neg h1]
      exact ⟨_, rfl⟩

/-- C9 witness: a concrete candidate with 3 key points and 3 hashtags
constructs a post with both counts in range; a concrete candidate with 1
key point is rejected. -/
theorem linkedinpost_count_invariant_witness :
    (3 ≤ (LinkedInPost.mk "h" "c" ["k1", "k2", "k3"] "t" "q" ["#a", "#b", "#c"]).key_points.length ∧
      (LinkedInPost.mk "h" "c" ["k1", "k2", "k3"] "t" "q" ["#a", "#b", "#c"]).key_points.length ≤ 5 ∧
      3 ≤ (LinkedInPost.mk "h" "c" ["k1", "k2", "k3"] "t" "q" ["#a", "#b", "#c"]).hashtags.length ∧
      (LinkedInPost.mk "h" "c" ["k1", "k2", "k3"] "t" "q" ["#a", "#b", "#c"]).hashtags.length ≤ 5) ∧
    (∃ e, mkLinkedInPost (CandidatePost.mk "h" "c" ["k1"] "t" "q" ["#a", "#b", "#c"]) = .error e) :=
  ⟨(linkedinpost_count_invariant
      (CandidatePost.mk "h" "c" ["k1", "k2", "k3"] "t" "q" ["#a", "#b", "#c"])).1
      (LinkedInPost.mk "h" "c" ["k1", "k2", "k3"] "t" "q" ["#a", "#b", "#c"]) rfl,
   (linkedinpost_count_invariant
      (CandidatePost.mk "h" "c" ["k1"] "t" "q" ["#a", "#b", "#c"])).2 (by decide)⟩

/-- C6: whenever the research and writer stages succeed, `execute`
completes with a result whose `metadata.post_length` is the exact
character length of the final post and whose `metadata.research_steps`
is the number of tool invocations reported by the research stage; the
output validator's report is recorded in the metadata but its warnings
never block completion (the result carries whatever report the
validator produced). -/
theorem execute_success_metadata (m t : String) (r : ResearchStageResult)
    (p : PostOutput) (lp : String)
    (hv : validate_topic t = .ok ())
    (hp : postToText p = .ok lp) :
    executeModel m t (.ok r) (.ok p) =
      .ok { topic := t
            research_report := normalizeRaw r.output
            linkedin_post := lp
            metadata :=
              { research_steps := r.intermediate_steps.length
                post_length := lp.length
                validation := validate_linkedin_post lp
                model_used := m } } := by
  simp [executeModel, hv, hp]

/-- C6 witness: the theorem applied at the spec's end-to-end example —
a valid topic, a stubbed research stage returning report "R" with 2
tool calls, and a stubbed writer returning a structured post with 3 key
points and 3 hashtags. -/
theorem execute_success_metadata_witness :
    executeModel "gemini-1.5-flash" "Cloud Computing Trends"
        (.ok ⟨.str "R", [(), ()]⟩)
        (.ok (PostOutput.pydantic
          (LinkedInPost.mk "h" "c" ["k1", "k2", "k3"] "t" "q" ["#a", "#b", "#c"]))) =
      .ok { topic := "Cloud Computing Trends"
            research_report := "R"
            linkedin_post :=
              format_for_linkedin
                (LinkedInPost.mk "h" "c" ["k1", "k2", "k3"] "t" "q" ["#a", "#b", "#c"])
            metadata :=
              { research_steps := 2
                post_length :=
                  (format_for_linkedin
                    (LinkedInPost.mk "h" "c" ["k1", "k2", "k3"] "t" "q" ["#a", "#b", "#c"])).length
                validation :=
                  validate_linkedin_post
                    (format_for_linkedin
                      (LinkedInPost.mk "h" "c" ["k1", "k2", "k3"] "t" "q" ["#a", "#b", "#c"]))
                model_used := "gemini-1.5-flash" } } :=
  execute_success_metadata "gemini-1.5-flash" "Cloud Computing Trends"
    ⟨.str "R", [(), ()]⟩
    (PostOutput.pydantic (LinkedInPost.mk "h" "c" ["k1", "k2", "k3"] "t" "q" ["#a", "#b", "#c"]))
    (format_for_linkedin (LinkedInPost.mk "h" "c" ["k1", "k2", "k3"] "t" "q" ["#a", "#b", "#c"]))
    rfl rfl

/-- C7: for every topic the validator rejects, `execute` fails with the
validator's error, and the outcome is the same whatever the research and
writer stages would have produced — neither stage's result is consulted,
so no external call is made before validation succeeds. -/
theorem execute_failfast (m t : String) (e : TopicError)
    (research : Except String ResearchStageResult)
    (writer : Except String PostOutput)
    (h : validate_topic t = .error e) :
    executeModel m t research writer = .error (.invalidTopic e) := by
  simp [executeModel, h]

/-- C7 witness: the theorem applied to the empty topic with stage
oracles that would have reported calls. -/
theorem execute_failfast_witness :
    executeModel "m" "" (.error "research never invoked")
        (.error "writer never invoked")
      = .error (.invalidTopic .EmptyInput) :=
  execute_failfast "m" "" .EmptyInput
    (.error "research never invoked") (.error "writer never invoked") rfl

/-- C8: the scrape adapter's request carries the fixed 30-second
timeout, and on every failing outcome (raised exception or HTTP error
status) `scrape` returns — it never raises — the sentinel string, which
embeds both the URL and the error message as substrings. -/
theorem scrape_total_sentinel (url : String) (o : RequestOutcome) :
    (scrapeRequest url).timeoutSeconds = 30 ∧
    (scrapeFailed o = true →
      scrape url o = "Error scraping " ++ url ++ ": " ++ scrapeErrMsg o ∧
      List.IsInfix url.toList (scrape url o).toList ∧
      List.IsInfix (scrapeErrMsg o).toList (scrape url o).toList) ∧
    (∀ status markdownField, scrapeFailed (.resp status markdownField) = false →
      scrape url (.resp status markdownField) = markdownField.getD "") := by
  refine ⟨rfl, ?_, ?_⟩
  · intro hfail
    have hs : scrape url o = "Error scraping " ++ url ++ ": " ++ scrapeErrMsg o := by
      unfold scrape
      rw [if_pos hfail]
    refine ⟨hs, ?_, ?_⟩
    · rw [hs]
      exact ⟨"Error scraping ".toList, (": " ++ scrapeErrMsg o).toList,
        by simp [String.toList, List.append_assoc]⟩
    · rw [hs]
      exact ⟨("Error scraping " ++ url ++ ": ").toList, [],
        by simp [String.toList, List.append_assoc]⟩
  · intro status markdownField hok
    unfold scrape
    rw [if_neg (by simp [hok])]

/-- C8 witness: the theorem applied to a concrete URL and a concrete
raised-exception outcome. -/
theorem scrape_total_sentinel_witness :
    scrape "http://x" (.exn "timed out")
      = "Error scraping " ++ "http://x" ++ ": " ++ scrapeErrMsg (.exn "timed out") ∧
    List.IsInfix ("http://x" : String).toList (scrape "http://x" (.exn "timed out")).toList :=
  ⟨((scrape_total_sentinel "http://x" (.exn "timed out")).2.1 rfl).1,
   ((scrape_total_sentinel "http://x" (.exn "timed out")).2.1 rfl).2.1⟩

/-- C1 counterexample: with the structured chain installed (setup
succeeded), a run on which that chain raises fails the whole pipeline
even though the text-parse fallback chain would have succeeded on that
run — the run does not fail "only if both strategies fail". -/
theorem writer_fallback_cex :
    executeModel "m" "valid topic"
        (.ok ⟨.str "R", []⟩)
        (runWriterStage (setupWriterChain true)
          (.error "structured generation raised")
          (.ok (LinkedInPost.mk "h" "c" ["k1", "k2", "k3"] "t" "q" ["#a", "#b", "#c"])))
      = .error (.stageError "structured generation raised") ∧
    runWriterStage WriterChain.parserFallback
        (.error "structured generation raised")
        (.ok (LinkedInPost.mk "h" "c" ["k1", "k2", "k3"] "t" "q" ["#a", "#b", "#c"]))
      = .ok (PostOutput.pydantic
          (LinkedInPost.mk "h" "c" ["k1", "k2", "k3"] "t" "q" ["#a", "#b", "#c"])) :=
  ⟨rfl, rfl⟩

/-- C1 (amended): the fallback choice happens once, at setup — if
configuring schema-constrained structured output raises there, the
text-parse fallback chain is installed for all runs; at run time an
exception from whichever chain was installed fails the run immediately
and the other strategy is not attempted. -/
theorem writer_fallback_setup_time (sRun : Except String PostOutput)
    (fRun : Except String LinkedInPost) :
    setupWriterChain false = WriterChain.parserFallback ∧
    setupWriterChain true = WriterChain.structuredJson ∧
    (∀ e, sRun = .error e →
      runWriterStage .structuredJson sRun fRun = .error e) ∧
    (∀ e, fRun = .error e →
      runWriterStage .parserFallback sRun fRun = .error e) := by
  refine ⟨rfl, rfl, ?_, ?_⟩
  · intro e he
    simp [runWriterStage, he]
  · intro e he
    simp [runWriterStage, he, Except.map]

/-- C1 amended witness: the theorem applied to concrete failing runs of
each installed chain. -/
theorem writer_fallback_setup_time_witness :
    runWriterStage .structuredJson (.error "E") (.error "F") = .error "E" ∧
    runWriterStage .parserFallback (.error "E") (.error "F") = .error "F" :=
  ⟨(writer_fallback_setup_time (.error "E") (.error "F")).2.2.1 "E" rfl,
   (writer_fallback_setup_time (.error "E") (.error "F")).2.2.2 "F" rfl⟩

/-- C2 counterexample: a raw-string writer output that fails JSON
parsing does not fail the run — `execute` completes and returns the
unparsed string as the final post. -/
theorem text_fallback_parse_cex :
    (executeModel "m" "some topic"
        (.ok ⟨.str "R", [()]⟩)
        (.ok (PostOutput.str "not json" none))).toOption.map
        ExecutionResult.linkedin_post = some "not json" :=
  rfl

/-- C2 (amended): an exception raised by the writer chain itself (as the
fallback parser chain raises on unparsable text) fails the run; but a
raw string that reaches `execute`'s own string-handling branch and fails
JSON parsing — or parses to a record violating the count invariants —
completes the run with the unparsed string as the post. -/
theorem text_fallback_parse_characterization
    (s : String) (c : CandidatePost) (e msg m t : String) (r : ResearchStageResult) :
    (postToText (PostOutput.str s none) = .ok s) ∧
    (mkLinkedInPost c = .error e → postToText (PostOutput.str s (some c)) = .ok s) ∧
    (validate_topic t = .ok () →
      executeModel m t (.ok r) (.error msg) = .error (.stageError msg)) := by
  refine ⟨rfl, ?_, ?_⟩
  · intro h
    simp [postToText, h]
  · intro hv
    simp [executeModel, hv]

/-- C2 amended witness: the theorem applied to a concrete unparsable
string, a concrete invalid parsed record, and a concrete raising writer
chain. -/
theorem text_fallback_parse_characterization_witness :
    postToText (PostOutput.str "broken" none) = .ok "broken" ∧
    postToText (PostOutput.str "broken"
        (some (CandidatePost.mk "h" "c" ["k1"] "t" "q" ["#a", "#b", "#c"]))) = .ok "broken" ∧
    executeModel "m" "some topic" (.ok ⟨.str "R", []⟩) (.error "parser raised")
      = .error (.stageError "parser raised") :=
  ⟨(text_fallback_parse_characterization "broken"
      (CandidatePost.mk "h" "c" ["k1"] "t" "q" ["#a", "#b", "#c"])
      "validation error: key_points count out of range"
      "parser raised" "m" "some topic" ⟨.str "R", []⟩).1,
   (text_fallback_parse_characterization "broken"
      (CandidatePost.mk "h" "c" ["k1"] "t" "q" ["#a", "#b", "#c"])
      "validation error: key_points count out of range"
      "parser raised" "m" "some topic" ⟨.str "R", []⟩).2.1 rfl,
   (text_fallback_parse_characterization "broken"
      (CandidatePost.mk "h" "c" ["k1"] "t" "q" ["#a", "#b", "#c"])
      "validation error: key_points count out of range"
      "parser raised" "m" "some topic" ⟨.str "R", []⟩).2.2 rfl⟩

end ResearchAgent
